import Mathlib

/-!
Shallow embedding of the todo-go repository: the Todo record model, the
store-access layer (Add, Update, Delete, AllList), the gin HTTP handlers
(AddTodoHandler, UpdateTodoHandler, DeleteTodoHandler, GetAllTodosHandler and
throwErrorIfPresent, in both the package-main variant and the
internal/handler variant), and the connection bootstrap (database.Connect in
its error-returning and panicking variants, initDb and the main startup flow).
The Go package main is embedded in namespace Main, package handler in
namespace handler, package database in namespace database.

Modelling conventions:
  - time.Time values are modelled as Nat (abstract instants); the current time
    at a store call is passed explicitly as a parameter named now, standing for
    the time.Now() calls made inside the Go function.
  - The todos table is a DBState: a list of rows plus the next id the database
    will generate for an INSERT ... RETURNING id.
  - A Go error is a GoErr: noRows models sql.ErrNoRows, driver msg models any
    other database/driver error (the spec's DataAccessError).  Whether the
    underlying driver call fails is an explicit parameter (execFail or
    queryFail : Option String, the driver's error message when it fails).
  - A gin response write (one c.JSON call) is an HttpWrite: a status code and
    an abstracted JSON body.  A handler returns the list of writes it performs,
    in order, together with the database state after the call.
  - The outcome of c.ShouldBindJSON is passed to a handler as an
    Except String input: error e is a parse failure with message e, ok v is the
    successfully bound value.
-/

/-- The Todo entity of the record model (struct Todo of the main package):
id, title, description, is_done, created_at, updated_at. -/
structure Todo where
  ID : Int
  Title : String
  Description : String
  IsDone : Bool
  CreatedAt : Nat
  UpdatedAt : Nat
deriving Repr, DecidableEq

/-- The state of the todos table: its rows, in select order, and the id the
database will assign to the next inserted row. -/
structure DBState where
  rows : List Todo
  nextId : Int
deriving Repr, DecidableEq

/-- A Go error as seen by this program: sql.ErrNoRows, or any other
database/driver error carrying its message (the spec's DataAccessError). -/
inductive GoErr where
  | noRows
  | driver (msg : String)
deriving Repr, DecidableEq

/-- The abstracted JSON body of one gin response write. -/
inductive Body where
  | err (msg : String)
  | msgOnly (msg : String)
  | msgWithId (msg : String) (id : Int)
  | todoList (todos : Option (List Todo))
deriving Repr, DecidableEq

/-- One c.JSON call: an HTTP status code and a JSON body.  A nil Go slice
serialises as null, so Body.todoList carries an Option. -/
structure HttpWrite where
  status : Nat
  body : Body
deriving Repr, DecidableEq

namespace Main

/-- Store access, Add: INSERT INTO todos (title, description, is_done,
created_at, updated_at) VALUES (todo.Title, todo.Description, false,
time.Now(), time.Now()) RETURNING id, scanned into id.  On a driver failure the
Go function returns (0, err); otherwise it returns the generated id. -/
def Add (execFail : Option String) (st : DBState) (todo : Todo) (now : Nat) :
    (Int × Option GoErr) × DBState :=
  match execFail with
  | some msg => ((0, some (.driver msg)), st)
  | none =>
    let newRow : Todo :=
      { ID := st.nextId
        Title := todo.Title
        Description := todo.Description
        IsDone := false
        CreatedAt := now
        UpdatedAt := now }
    ((st.nextId, none), { rows := st.rows ++ [newRow], nextId := st.nextId + 1 })

/-- Store access, Update: UPDATE todos SET title, description, is_done,
created_at, updated_at WHERE id, with created_at and updated_at both bound to
time.Now().  On a driver failure the error is returned as-is; when zero rows
are affected the function returns sql.ErrNoRows. -/
def Update (execFail : Option String) (st : DBState) (todo : Todo) (now : Nat) :
    Option GoErr × DBState :=
  match execFail with
  | some msg => (some (.driver msg), st)
  | none =>
    let affected := st.rows.countP (fun t => t.ID == todo.ID)
    let newRows := st.rows.map (fun t =>
      if t.ID == todo.ID then
        { t with
            Title := todo.Title
            Description := todo.Description
            IsDone := todo.IsDone
            CreatedAt := now
            UpdatedAt := now }
      else t)
    if affected == 0 then (some .noRows, { st with rows := newRows })
    else (none, { st with rows := newRows })

/-- Store access, Delete: DELETE from todos WHERE id.  On a driver failure the
error is returned as-is; when zero rows are affected the function returns
sql.ErrNoRows. -/
def Delete (execFail : Option String) (st : DBState) (id : Int) :
    Option GoErr × DBState :=
  match execFail with
  | some msg => (some (.driver msg), st)
  | none =>
    let affected := st.rows.countP (fun t => t.ID == id)
    let newRows := st.rows.filter (fun t => !(t.ID == id))
    if affected == 0 then (some .noRows, { st with rows := newRows })
    else (none, { st with rows := newRows })

/-- The rows.Next()/rows.Scan loop of AllList: starting from todos initialised
to the empty (non-nil) slice, each scanned row is appended in order. -/
def scanRows : List Todo → List Todo → List Todo
  | [], todos => todos
  | r :: rest, todos => scanRows rest (todos ++ [r])

/-- Store access, AllList: SELECT id, title, description, is_done, created_at,
updated_at FROM todos.  On a query failure the Go function returns (nil, err)
(nil modelled as none); otherwise it scans every row into the slice todos,
which starts as the empty non-nil slice, and returns (todos, nil). -/
def AllList (queryFail : Option String) (st : DBState) :
    Option (List Todo) × Option GoErr :=
  match queryFail with
  | some msg => (none, some (.driver msg))
  | none => (some (scanRows st.rows []), none)

/-- throwErrorIfPresent of the main package: writes a 404 with a fixed message
for sql.ErrNoRows, a 500 carrying the error's message for any other error, and
nothing when there is no error.  It returns to its caller in every case: it
does not abort the surrounding handler. -/
def throwErrorIfPresent (err : Option GoErr) : List HttpWrite :=
  match err with
  | some .noRows => [⟨404, .err "Todo not found"⟩]
  | some (.driver msg) => [⟨500, .err msg⟩]
  | none => []

/-- AddTodoHandler of the main package: binds the request body into a Todo
(400 with the parse error message and an immediate return on failure), calls
Add, passes the error to throwErrorIfPresent, and then unconditionally writes
the 200 success body carrying the returned id. -/
def AddTodoHandler (execFail : Option String) (st : DBState)
    (bindResult : Except String Todo) (now : Nat) : List HttpWrite × DBState :=
  match bindResult with
  | .error e => ([⟨400, .err e⟩], st)
  | .ok todoInput =>
    let r := Add execFail st todoInput now
    (throwErrorIfPresent r.1.2 ++
      [⟨200, .msgWithId "Todo added successfully" r.1.1⟩], r.2)

/-- UpdateTodoHandler of the main package: binds the request body into a Todo
(400 with the parse error message and an immediate return on failure), calls
Update, passes the error to throwErrorIfPresent, and then unconditionally
writes the 200 success body. -/
def UpdateTodoHandler (execFail : Option String) (st : DBState)
    (bindResult : Except String Todo) (now : Nat) : List HttpWrite × DBState :=
  match bindResult with
  | .error e => ([⟨400, .err e⟩], st)
  | .ok todoInput =>
    let r := Update execFail st todoInput now
    (throwErrorIfPresent r.1 ++
      [⟨200, .msgOnly "Todo updated successfully"⟩], r.2)

/-- DeleteTodoHandler of the main package: binds the request body into a
struct holding only the id (400 with the parse error message and an immediate
return on failure), calls Delete, passes the error to throwErrorIfPresent, and
then unconditionally writes the 200 success body. -/
def DeleteTodoHandler (execFail : Option String) (st : DBState)
    (bindResult : Except String Int) : List HttpWrite × DBState :=
  match bindResult with
  | .error e => ([⟨400, .err e⟩], st)
  | .ok id =>
    let r := Delete execFail st id
    (throwErrorIfPresent r.1 ++
      [⟨200, .msgOnly "Todo deleted successfully"⟩], r.2)

/-- GetAllTodosHandler of the main package: calls AllList, passes the error to
throwErrorIfPresent, and then unconditionally writes the slice (nil on error)
with status 200. -/
def GetAllTodosHandler (queryFail : Option String) (st : DBState) :
    List HttpWrite :=
  let r := AllList queryFail st
  throwErrorIfPresent r.2 ++ [⟨200, .todoList r.1⟩]

end Main

namespace handler

/-!
The internal/handler package.  Its handlers call models.Add, models.Update,
models.Delete and models.AllList; those are the store-access functions with the
signatures and SQL of the main package's Add, Update, Delete and AllList
(the store layer relocated into the models package), so the handler functions
below invoke the Main-namespace store operations.
-/

/-- throwErrorIfPresent of the handler package: identical to the main
package's version; it writes a 404 for sql.ErrNoRows, a 500 carrying the
error's message otherwise, and never aborts the surrounding handler. -/
def throwErrorIfPresent (err : Option GoErr) : List HttpWrite :=
  match err with
  | some .noRows => [⟨404, .err "Todo not found"⟩]
  | some (.driver msg) => [⟨500, .err msg⟩]
  | none => []

/-- AddTodoHandler of the handler package: binds the request body into a Todo
(400 and immediate return on parse failure), calls models.Add, passes the
error to throwErrorIfPresent, then unconditionally writes the 200 success
body carrying the returned id. -/
def AddTodoHandler (execFail : Option String) (st : DBState)
    (bindResult : Except String Todo) (now : Nat) : List HttpWrite × DBState :=
  match bindResult with
  | .error e => ([⟨400, .err e⟩], st)
  | .ok todoInput =>
    let r := Main.Add execFail st todoInput now
    (throwErrorIfPresent r.1.2 ++
      [⟨200, .msgWithId "Todo added successfully" r.1.1⟩], r.2)

/-- UpdateTodoHandler of the handler package: binds the request body into a
Todo (400 and immediate return on parse failure), calls models.Update, passes
the error to throwErrorIfPresent, then unconditionally writes the 200 success
body. -/
def UpdateTodoHandler (execFail : Option String) (st : DBState)
    (bindResult : Except String Todo) (now : Nat) : List HttpWrite × DBState :=
  match bindResult with
  | .error e => ([⟨400, .err e⟩], st)
  | .ok todoInput =>
    let r := Main.Update execFail st todoInput now
    (throwErrorIfPresent r.1 ++
      [⟨200, .msgOnly "Todo updated successfully"⟩], r.2)

/-- DeleteTodoHandler of the handler package: binds the request body into a
struct holding only the id (400 and immediate return on parse failure), calls
models.Delete, passes the error to throwErrorIfPresent, then unconditionally
writes the 200 success body. -/
def DeleteTodoHandler (execFail : Option String) (st : DBState)
    (bindResult : Except String Int) : List HttpWrite × DBState :=
  match bindResult with
  | .error e => ([⟨400, .err e⟩], st)
  | .ok id =>
    let r := Main.Delete execFail st id
    (throwErrorIfPresent r.1 ++
      [⟨200, .msgOnly "Todo deleted successfully"⟩], r.2)

/-- GetAllTodosHandler of the handler package: calls models.AllList, passes
the error to throwErrorIfPresent, and then, when len(todos) is zero (also the
case for the nil slice returned on error), writes a 200 JSON object with the
message No todos found and returns; otherwise it writes the slice with
status 200. -/
def GetAllTodosHandler (queryFail : Option String) (st : DBState) :
    List HttpWrite :=
  let r := Main.AllList queryFail st
  let errWrites := throwErrorIfPresent r.2
  let todos := r.1
  if (todos.getD []).length == 0 then
    errWrites ++ [⟨200, .msgOnly "No todos found"⟩]
  else
    errWrites ++ [⟨200, .todoList todos⟩]

end handler

namespace database

/-- A connected database handle, recording the DSN it was opened with. -/
structure DBConn where
  dsnUsed : String
deriving Repr, DecidableEq

/-- Connect of the database package (database/db.go): builds the DSN as the
fixed string literal of the source, opens the connection and pings it.  An
open failure returns the error failed to connect database wrapping the driver
message; a ping failure returns failed to ping database likewise; on success
it prints Database connection established and returns the handle.  The process
environment is passed as env (a map from variable name to its value when set)
to record that Connect is a function of it; its second component is the list
of lines the function prints. -/
def Connect (env : String → Option String) (openFail pingFail : Option String) :
    Except String DBConn × List String :=
  let dsn :=
    "host=localhost user=myuser password=mysecretpassword dbname=mydatabase port=5432 sslmode=disable"
  match openFail with
  | some msg => (.error ("failed to connect database: " ++ msg), [])
  | none =>
    match pingFail with
    | some msg => (.error ("failed to ping database: " ++ msg), [])
    | none => (.ok ⟨dsn⟩, ["Database connection established"])

/-- Connect of the earlier database-package variant (unnamed part_000): same
fixed DSN, but an open or ping failure panics with a fixed message, which
tears the whole process down; the model returns the panic message as the
error of an Except that no caller catches.  On success it prints Database
connection established and returns the handle. -/
def ConnectV0 (env : String → Option String) (openFail pingFail : Option String) :
    Except String (DBConn × List String) :=
  let dsn :=
    "host=localhost user=myuser password=mysecretpassword dbname=mydatabase port=5432 sslmode=disable"
  match openFail with
  | some _ => .error "failed to connect database"
  | none =>
    match pingFail with
    | some _ => .error "failed to ping database"
    | none => .ok (⟨dsn⟩, ["Database connection established"])

end database

namespace Main

/-- initDb of main.go: calls database.Connect; on error it prints Error
connecting to database with the error and returns (leaving the global db nil);
on success it stores the handle.  Returns the handle (none when connecting
failed) and the lines printed so far. -/
def initDb (connectResult : Except String database.DBConn × List String) :
    Option database.DBConn × List String :=
  match connectResult with
  | (.error e, logs) => (none, logs ++ ["Error connecting to database: " ++ e])
  | (.ok c, logs) => (some c, logs)

/-- One observable step of the startup flow of func main. -/
inductive StartupStep where
  | logLine (msg : String)
  | registerRoutes
  | serve
deriving Repr, DecidableEq

/-- The startup flow of func main in main.go: initDb (which only logs on a
connect failure and returns), then gin route registration, then router.Run,
unconditionally.  The list records the observable startup steps in order. -/
def mainStartup (env : String → Option String) (openFail pingFail : Option String) :
    List StartupStep :=
  let r := initDb (database.Connect env openFail pingFail)
  (r.2.map StartupStep.logLine) ++ [StartupStep.registerRoutes, StartupStep.serve]

end Main

/-! Helper lemmas about the store-access definitions. -/

/-- The scan loop of AllList yields the accumulator followed by the remaining
rows; in particular scanning from the empty slice yields every row in order. -/
theorem scanRows_eq (l acc : List Todo) : Main.scanRows l acc = acc ++ l := by
  induction l generalizing acc with
  | nil => simp [Main.scanRows]
  | cons r rest ih => simp [Main.scanRows, ih]

/-- Mapping a guarded rewrite over a list whose elements all fail the guard is
the identity. -/
theorem map_if_not_matched {α : Type} (p : α → Prop) [DecidablePred p]
    (f : α → α) (l : List α) (h : ∀ x ∈ l, ¬ p x) :
    l.map (fun x => if p x then f x else x) = l := by
  induction l with
  | nil => rfl
  | cons a rest ih =>
    have ha := h a (List.mem_cons_self a rest)
    have ih' := ih (fun x hx => h x (List.mem_cons_of_mem a hx))
    simp [ha, ih']

/-- C5: for all valid (title, description), Create inserts exactly one new row
whose title and description equal the input, whose is_done is false, and whose
created_at and updated_at are both the insertion time, and returns the
database-generated id of that row: Add succeeds returning the generated id,
and a subsequent AllList yields exactly the old rows followed by that one new
row. -/
theorem add_creates_row (st : DBState) (todo : Todo) (now : Nat) :
    (Main.Add none st todo now).1 = (st.nextId, none) ∧
    (Main.AllList none (Main.Add none st todo now).2).1 =
      some (st.rows ++ [⟨st.nextId, todo.Title, todo.Description, false, now, now⟩]) := by
  refine ⟨rfl, ?_⟩
  simp [Main.Add, Main.AllList, scanRows_eq]

/-- C10: the store-level Create ignores the is_done, created_at and updated_at
fields of its input record: two input Todos agreeing on title and description
produce the same insert (also through AddTodoHandler), and the inserted row
has is_done false and both timestamps equal to the insertion time. -/
theorem add_ignores_done_and_timestamps (execFail : Option String) (st : DBState)
    (t1 t2 : Todo) (now : Nat)
    (ht : t1.Title = t2.Title) (hd : t1.Description = t2.Description) :
    Main.Add execFail st t1 now = Main.Add execFail st t2 now ∧
    Main.AddTodoHandler execFail st (.ok t1) now =
      Main.AddTodoHandler execFail st (.ok t2) now ∧
    (Main.Add none st t1 now).2.rows =
      st.rows ++ [⟨st.nextId, t1.Title, t1.Description, false, now, now⟩] := by
  have h : Main.Add execFail st t1 now = Main.Add execFail st t2 now := by
    cases execFail <;> simp [Main.Add, ht, hd]
  refine ⟨h, ?_, ?_⟩
  · simp [Main.AddTodoHandler, h]
  · simp [Main.Add]

/-- Witness for C10 at a concrete input: a done input with chosen timestamps
inserts the same row as the fresh input. -/
theorem add_ignores_done_and_timestamps_witness :
    Main.Add none ⟨[], 1⟩ ⟨0, "a", "b", true, 5, 6⟩ 7 =
      Main.Add none ⟨[], 1⟩ ⟨0, "a", "b", false, 0, 0⟩ 7 ∧
    Main.AddTodoHandler none ⟨[], 1⟩ (.ok ⟨0, "a", "b", true, 5, 6⟩) 7 =
      Main.AddTodoHandler none ⟨[], 1⟩ (.ok ⟨0, "a", "b", false, 0, 0⟩) 7 ∧
    (Main.Add none ⟨[], 1⟩ ⟨0, "a", "b", true, 5, 6⟩ 7).2.rows =
      [] ++ [⟨1, "a", "b", false, 7, 7⟩] :=
  add_ignores_done_and_timestamps none ⟨[], 1⟩ ⟨0, "a", "b", true, 5, 6⟩
    ⟨0, "a", "b", false, 0, 0⟩ 7 rfl rfl

/-- C7: a request body that fails to bind makes every handler respond with a
single 400 write carrying the parse error message, invoke no store operation
and leave the store unchanged, in both handler variants. -/
theorem parse_failure_short_circuits (execFail : Option String) (st : DBState)
    (now : Nat) (e : String) :
    Main.AddTodoHandler execFail st (.error e) now = ([⟨400, .err e⟩], st) ∧
    Main.UpdateTodoHandler execFail st (.error e) now = ([⟨400, .err e⟩], st) ∧
    Main.DeleteTodoHandler execFail st (.error e) = ([⟨400, .err e⟩], st) ∧
    handler.AddTodoHandler execFail st (.error e) now = ([⟨400, .err e⟩], st) ∧
    handler.UpdateTodoHandler execFail st (.error e) now = ([⟨400, .err e⟩], st) ∧
    handler.DeleteTodoHandler execFail st (.error e) = ([⟨400, .err e⟩], st) :=
  ⟨rfl, rfl, rfl, rfl, rfl, rfl⟩

/-- C1 (code bug): Update overwrites created_at.  On a store holding the row
with id 1 and created_at 10, a successful UpdateByID at time 20 leaves the row
with created_at 20 rather than the claimed unchanged value 10. -/
theorem update_overwrites_created_at :
    (Main.Update none ⟨[⟨1, "Buy milk", "2%", false, 10, 10⟩], 2⟩
        ⟨1, "Buy milk", "whole", true, 0, 0⟩ 20).1 = none ∧
    (Main.Update none ⟨[⟨1, "Buy milk", "2%", false, 10, 10⟩], 2⟩
        ⟨1, "Buy milk", "whole", true, 0, 0⟩ 20).2.rows =
      [⟨1, "Buy milk", "whole", true, 20, 20⟩] ∧
    (Main.Update none ⟨[⟨1, "Buy milk", "2%", false, 10, 10⟩], 2⟩
        ⟨1, "Buy milk", "whole", true, 0, 0⟩ 20).2.rows ≠
      [⟨1, "Buy milk", "whole", true, 10, 20⟩] := by
  refine ⟨rfl, rfl, ?_⟩
  decide

/-- C2 (code bug): because throwErrorIfPresent does not abort its caller, a
handler whose store call fails writes the error response and then also writes
the 200 success body: it sends two responses, and a 200 body is emitted on
failure.  Shown for UpdateTodoHandler on a store with no matching row (404
then 200) and for the handler package's DeleteTodoHandler under a driver
failure (500 then 200). -/
theorem update_handler_writes_success_after_error :
    Main.UpdateTodoHandler none ⟨[], 1⟩ (.ok ⟨1, "t", "d", true, 0, 0⟩) 5 =
      ([⟨404, .err "Todo not found"⟩, ⟨200, .msgOnly "Todo updated successfully"⟩],
        ⟨[], 1⟩) ∧
    handler.DeleteTodoHandler (some "connection reset") ⟨[], 1⟩ (.ok 1) =
      ([⟨500, .err "connection reset"⟩, ⟨200, .msgOnly "Todo deleted successfully"⟩],
        ⟨[], 1⟩) :=
  ⟨rfl, rfl⟩

/-- C3: UpdateByID on an id matching no row signals NotFound (sql.ErrNoRows,
the zero-rows-affected case) and leaves the store unchanged, and any store
failure other than a zero-row match is returned as the underlying driver
error (a DataAccessError), never as NotFound. -/
theorem update_signals_notfound_or_dataaccess (st : DBState) (todo : Todo)
    (now : Nat) (msg : String) (h : ∀ t ∈ st.rows, t.ID ≠ todo.ID) :
    Main.Update none st todo now = (some .noRows, st) ∧
    Main.Update (some msg) st todo now = (some (.driver msg), st) := by
  refine ⟨?_, rfl⟩
  have hc : st.rows.countP (fun t => t.ID == todo.ID) = 0 :=
    List.countP_eq_zero.mpr (fun t ht => by simpa using h t ht)
  have hm := map_if_not_matched (fun t => t.ID = todo.ID)
    (fun t => { t with
        Title := todo.Title
        Description := todo.Description
        IsDone := todo.IsDone
        CreatedAt := now
        UpdatedAt := now }) st.rows h
  simp [Main.Update, hc, hm]

/-- Witness for C3 at a concrete input: updating id 2 in a store holding only
id 1 yields NotFound with the store unchanged, and a driver failure is
propagated as a DataAccessError. -/
theorem update_signals_notfound_or_dataaccess_witness :
    Main.Update none ⟨[⟨1, "a", "b", false, 0, 0⟩], 2⟩ ⟨2, "x", "y", true, 0, 0⟩ 9 =
      (some .noRows, ⟨[⟨1, "a", "b", false, 0, 0⟩], 2⟩) ∧
    Main.Update (some "disk full") ⟨[⟨1, "a", "b", false, 0, 0⟩], 2⟩
        ⟨2, "x", "y", true, 0, 0⟩ 9 =
      (some (.driver "disk full"), ⟨[⟨1, "a", "b", false, 0, 0⟩], 2⟩) :=
  update_signals_notfound_or_dataaccess ⟨[⟨1, "a", "b", false, 0, 0⟩], 2⟩
    ⟨2, "x", "y", true, 0, 0⟩ 9 "disk full" (by decide)

/-- C4: DeleteByID on an id matching no row returns NotFound and the store's
contents are exactly the same after the call; on an id with a matching row it
succeeds and removes exactly the rows with that id, keeping every other row. -/
theorem delete_by_id_frame (st : DBState) (id : Int) :
    ((∀ t ∈ st.rows, t.ID ≠ id) → Main.Delete none st id = (some .noRows, st)) ∧
    ((∃ t ∈ st.rows, t.ID = id) →
      Main.Delete none st id =
        (none, ⟨st.rows.filter (fun t => !(t.ID == id)), st.nextId⟩)) := by
  constructor
  · intro h
    have hp : ∀ t ∈ st.rows, (t.ID == id) = false := fun t ht => by
      simpa using h t ht
    have hc : st.rows.countP (fun t => t.ID == id) = 0 :=
      List.countP_eq_zero.mpr (by simpa using hp)
    have hf : st.rows.filter (fun t => !(t.ID == id)) = st.rows :=
      List.filter_eq_self.mpr (fun t ht => by simp [hp t ht])
    simp [Main.Delete, hc, hf]
  · rintro ⟨t, ht, hid⟩
    have hc : st.rows.countP (fun t => t.ID == id) ≠ 0 := by
      intro h0
      have := List.countP_eq_zero.mp h0 t ht
      simp [hid] at this
    simp [Main.Delete, hc]

/-- Witness for C4 at concrete inputs: deleting id 5 from a store holding only
id 1 yields NotFound with the store unchanged, and deleting id 1 from a
two-row store removes exactly that row. -/
theorem delete_by_id_frame_witness :
    Main.Delete none ⟨[⟨1, "a", "b", false, 0, 0⟩], 2⟩ 5 =
      (some .noRows, ⟨[⟨1, "a", "b", false, 0, 0⟩], 2⟩) ∧
    Main.Delete none ⟨[⟨1, "a", "b", false, 0, 0⟩, ⟨2, "c", "d", true, 1, 1⟩], 3⟩ 1 =
      (none, ⟨[⟨2, "c", "d", true, 1, 1⟩], 3⟩) := by
  constructor
  · exact (delete_by_id_frame ⟨[⟨1, "a", "b", false, 0, 0⟩], 2⟩ 5).1 (by decide)
  · exact (delete_by_id_frame
      ⟨[⟨1, "a", "b", false, 0, 0⟩, ⟨2, "c", "d", true, 1, 1⟩], 3⟩ 1).2
      ⟨⟨1, "a", "b", false, 0, 0⟩, List.mem_cons_self _ _, rfl⟩

/-- C6 counterexample: on the empty store, the list endpoint of the handler
package responds 200 with the message object No todos found, not with an
empty sequence of Todos. -/
theorem list_endpoint_empty_store_message :
    handler.GetAllTodosHandler none ⟨[], 1⟩ = [⟨200, .msgOnly "No todos found"⟩] ∧
    handler.GetAllTodosHandler none ⟨[], 1⟩ ≠ [⟨200, .todoList (some [])⟩] := by
  constructor <;> decide

/-- C6 as amended: AllList returns every row and on the empty store returns
the empty sequence rather than an error (a query failure is returned as a
DataAccessError with a nil slice); the handler package's list endpoint
responds 200 with the full sequence when the store is non-empty, but with the
message object No todos found instead of an empty sequence when it is empty. -/
theorem alllist_and_list_endpoint (st : DBState) :
    Main.AllList none st = (some st.rows, none) ∧
    Main.AllList none ⟨[], st.nextId⟩ = (some [], none) ∧
    (∀ msg, Main.AllList (some msg) st = (none, some (.driver msg))) ∧
    handler.GetAllTodosHandler none st =
      (if st.rows.length == 0 then [⟨200, .msgOnly "No todos found"⟩]
       else [⟨200, .todoList (some st.rows)⟩]) := by
  refine ⟨?_, ?_, fun msg => rfl, ?_⟩
  · simp [Main.AllList, scanRows_eq]
  · simp [Main.AllList, scanRows_eq]
  · simp [handler.GetAllTodosHandler, Main.AllList, scanRows_eq,
      handler.throwErrorIfPresent]

/-- C8 counterexample: in the served variant (main.go with the error-returning
database.Connect), a connect failure does not terminate startup: main's flow
logs the error and still registers routes and serves requests. -/
theorem startup_serves_after_connect_failure :
    Main.mainStartup (fun _ => none) (some "connection refused") none =
      [Main.StartupStep.logLine
        "Error connecting to database: failed to connect database: connection refused",
       Main.StartupStep.registerRoutes, Main.StartupStep.serve] ∧
    Main.StartupStep.serve ∈
      Main.mainStartup (fun _ => none) (some "connection refused") none := by
  refine ⟨rfl, ?_⟩
  decide

/-- C8 as amended: in the panicking variant of Connect (unnamed part_000) an
open or ping failure tears the process down, so the bootstrapping flow
terminates fatally there; in the error-returning variant used by main.go,
initDb only logs the connect or ping error and main proceeds to register
routes and serve.  In both variants a successful bootstrap logs the
confirmation Database connection established. -/
theorem bootstrap_failure_behaviour (env : String → Option String) (msg : String) :
    Main.mainStartup env (some msg) none =
      [Main.StartupStep.logLine
        ("Error connecting to database: " ++ ("failed to connect database: " ++ msg)),
       Main.StartupStep.registerRoutes, Main.StartupStep.serve] ∧
    Main.mainStartup env none (some msg) =
      [Main.StartupStep.logLine
        ("Error connecting to database: " ++ ("failed to ping database: " ++ msg)),
       Main.StartupStep.registerRoutes, Main.StartupStep.serve] ∧
    database.ConnectV0 env (some msg) none = .error "failed to connect database" ∧
    database.ConnectV0 env none (some msg) = .error "failed to ping database" ∧
    (database.Connect env none none).2 = ["Database connection established"] :=
  ⟨rfl, rfl, rfl, rfl, rfl⟩

/-- C9 counterexample: Connect reads no configuration value.  With every
configuration variable set to otherhost the connection is still opened with
the hardcoded DSN, identically to any other environment. -/
theorem connect_reads_no_config_values :
    database.Connect (fun _ => some "otherhost") none none =
      database.Connect (fun _ => some "example") none none ∧
    (database.Connect (fun _ => some "otherhost") none none).1 =
      .ok ⟨"host=localhost user=myuser password=mysecretpassword dbname=mydatabase port=5432 sslmode=disable"⟩ :=
  ⟨rfl, rfl⟩

/-- C9 as amended: Connect builds the DSN as a single fixed string literal
(host localhost, user myuser, password mysecretpassword, dbname mydatabase,
port 5432, sslmode disable); it reads no configuration values, so its
behaviour is independent of the environment, in both Connect variants. -/
theorem connect_uses_fixed_dsn (env env2 : String → Option String)
    (openFail pingFail : Option String) :
    database.Connect env openFail pingFail = database.Connect env2 openFail pingFail ∧
    database.ConnectV0 env openFail pingFail = database.ConnectV0 env2 openFail pingFail ∧
    (database.Connect env none none).1 =
      .ok ⟨"host=localhost user=myuser password=mysecretpassword dbname=mydatabase port=5432 sslmode=disable"⟩ ∧
    database.ConnectV0 env none none =
      .ok (⟨"host=localhost user=myuser password=mysecretpassword dbname=mydatabase port=5432 sslmode=disable"⟩,
        ["Database connection established"]) :=
  ⟨rfl, rfl, rfl, rfl⟩
